import Mathlib

/-!
Shallow embedding of `src/app.py` (a small Flask community web application):
the credential store, session handling, and the record repositories for
appointments and reviews, together with the route handlers `book`, `reviews`,
`register`, `login`, `logout` and `profile`.

Modelling conventions:
* `pyStrip` models Python `str.strip()` (drop leading and trailing
  whitespace) and `pyLower` models `str.lower()` (per-character lowercase);
  both are defined structurally over the character list so they evaluate in
  the kernel.
* A form field read by `request.form.get(key, "")` is an `Option String`
  defaulted to `""` by `formGet`.
* `datetime.utcnow().isoformat()` timestamps are modelled as natural-number
  clock ticks; ISO-8601 strings compare chronologically, so the order is
  preserved.
* The SQLite tables are Lean lists in rowid (insertion) order, with the
  AUTOINCREMENT counters carried explicitly; `fetchone` on an unordered
  SELECT is `List.find?` (first row in table order), and `ORDER BY created_at
  DESC` is an insertion sort by descending timestamp.
* An uncaught Python exception (the bare `int(rating)` call) is the `.error`
  case of `Except`; since it is raised before `db.execute`/`db.commit`, the
  database is unchanged.
-/

/-- Modelled from the library contract of `werkzeug.security` (library code,
not part of this repository): `generate_password_hash` derives a salted
one-way hash of the password and `check_password_hash` re-derives the digest
from the stored salt and compares. The salt models the library's internal
randomness and is passed explicitly. -/
structure PwHash where
  salt : Nat
  digest : String
deriving Repr, DecidableEq

def hashMix (salt : Nat) (password : String) : String :=
  toString salt ++ "|" ++ password

def generate_password_hash (salt : Nat) (password : String) : PwHash :=
  ⟨salt, hashMix salt password⟩

def check_password_hash (h : PwHash) (password : String) : Bool :=
  h.digest == hashMix h.salt password

/-- Models Python `int(s)` on an already-stripped string: an optional sign
followed by at least one digit parses; anything else raises `ValueError`,
modelled as `none`. (Underscore digit grouping is not modelled; no claim
exercises it.) -/
def pyIntCore (ds : List Char) : Option Nat :=
  if ds = [] then none
  else if ds.all Char.isDigit then
    some (ds.foldl (fun n c => 10 * n + (c.toNat - 48)) 0)
  else none

def pyInt (s : String) : Option Int :=
  match s.data with
  | '-' :: rest => (pyIntCore rest).map (fun n => -(n : Int))
  | '+' :: rest => (pyIntCore rest).map (fun n => (n : Int))
  | ds => (pyIntCore ds).map (fun n => (n : Int))

/-- Models Python `str.strip()`: remove leading and trailing whitespace.
(Python strips a slightly larger Unicode whitespace class; no claim
depends on the exotic characters.) -/
def pyStrip (s : String) : String :=
  ⟨((s.data.dropWhile Char.isWhitespace).reverse.dropWhile
      Char.isWhitespace).reverse⟩

/-- Models Python `str.lower()`: lowercase each character. -/
def pyLower (s : String) : String :=
  ⟨s.data.map Char.toLower⟩

/-- A row of the `users` table (`init_db` in `app.py`). -/
structure UserRow where
  id : Nat
  name : String
  email : String
  password_hash : PwHash
  created_at : Nat
deriving Repr, DecidableEq

/-- A row of the `appointments` table. -/
structure ApptRow where
  id : Nat
  user_id : Option Nat
  name : String
  email : String
  appt_date : String
  appt_time : String
  reason : String
  created_at : Nat
deriving Repr, DecidableEq

/-- A row of the `reviews` table. -/
structure ReviewRow where
  id : Nat
  user_id : Option Nat
  name : String
  rating : Int
  comment : String
  created_at : Nat
deriving Repr, DecidableEq

/-- The SQLite database: the three tables in rowid order plus the
AUTOINCREMENT counters. -/
structure DB where
  users : List UserRow
  appointments : List ApptRow
  reviews : List ReviewRow
  next_user_id : Nat
  next_appt_id : Nat
  next_review_id : Nat
deriving Repr, DecidableEq

/-- The Flask client-side session cookie: the `user_id` and `user_name` keys
set by `login`, absent (`none`) when not logged in or after
`session.clear()`. -/
structure Session where
  user_id : Option Nat
  user_name : Option String
deriving Repr, DecidableEq

/-- HTTP method of a request. -/
inductive Method
  | get
  | post
deriving Repr, DecidableEq

/-- The pages `url_for` can redirect to. -/
inductive Page
  | home
  | about
  | book
  | reviews
  | register
  | login
  | profile
deriving Repr, DecidableEq

/-- A `flash(message, category)` call. -/
structure FlashMsg where
  message : String
  category : String
deriving Repr, DecidableEq

/-- One row of the public review feed: a review LEFT JOINed with the owning
user's email (`u.email as user_email`), `none` when there is no owner. -/
structure JoinedReview where
  review : ReviewRow
  user_email : Option String
deriving Repr, DecidableEq

/-- The HTTP response a handler produces: a redirect or a rendered template
together with the data passed to it. -/
inductive HResp
  | redirect (target : Page)
  | renderBook (appointments : List ApptRow)
  | renderReviews (items : List JoinedReview)
  | renderProfile (user : Option UserRow)
  | renderPage (p : Page)
deriving Repr, DecidableEq

/-- Everything observable about one request: the response, the flashed
messages, and the database and session afterwards. -/
structure Outcome where
  resp : HResp
  flashes : List FlashMsg
  db : DB
  sess : Session
deriving Repr, DecidableEq

/-- Python exceptions that can escape a handler. -/
inductive PyExc
  | valueError
deriving Repr, DecidableEq

/-- `request.form.get(key, "")`. -/
def formGet (v : Option String) : String := v.getD ""

/-- `get_user_by_email`: `SELECT * FROM users WHERE email = ?` then
`fetchone()` — the first matching row in table order. -/
def get_user_by_email (db : DB) (email : String) : Option UserRow :=
  db.users.find? (fun u => u.email == email)

/-- `get_user_by_id`: `SELECT * FROM users WHERE id = ?` then `fetchone()`. -/
def get_user_by_id (db : DB) (user_id : Nat) : Option UserRow :=
  db.users.find? (fun u => u.id == user_id)

/-- Newest-first order on appointment rows (`ORDER BY created_at DESC`). -/
def apptNewestFirst (a b : ApptRow) : Prop :=
  b.created_at ≤ a.created_at

instance : DecidableRel apptNewestFirst := fun a b =>
  Nat.decLe b.created_at a.created_at

instance : IsTotal ApptRow apptNewestFirst :=
  ⟨fun a b => Nat.le_total b.created_at a.created_at⟩

instance : IsTrans ApptRow apptNewestFirst :=
  ⟨fun _ _ _ hab hbc => Nat.le_trans hbc hab⟩

/-- Newest-first order on joined review rows (`ORDER BY r.created_at DESC`). -/
def reviewNewestFirst (a b : JoinedReview) : Prop :=
  b.review.created_at ≤ a.review.created_at

instance : DecidableRel reviewNewestFirst := fun a b =>
  Nat.decLe b.review.created_at a.review.created_at

instance : IsTotal JoinedReview reviewNewestFirst :=
  ⟨fun a b => Nat.le_total b.review.created_at a.review.created_at⟩

instance : IsTrans JoinedReview reviewNewestFirst :=
  ⟨fun _ _ _ hab hbc => Nat.le_trans hbc hab⟩

/-- The GET branch of `book`: `SELECT * FROM appointments WHERE user_id = ?
ORDER BY created_at DESC`. -/
def list_for_owner (db : DB) (owner : Option Nat) : List ApptRow :=
  List.insertionSort apptNewestFirst
    (db.appointments.filter (fun a => a.user_id == owner))

/-- The GET branch of `reviews`: `SELECT r.*, u.email as user_email FROM
reviews r LEFT JOIN users u ON r.user_id = u.id ORDER BY r.created_at DESC`. -/
def list_all_reviews (db : DB) : List JoinedReview :=
  List.insertionSort reviewNewestFirst
    (db.reviews.map (fun r =>
      ⟨r, (r.user_id.bind (fun uid => get_user_by_id db uid)).map
        (fun u => u.email)⟩))

/-- The form fields of `POST /book`. -/
structure BookForm where
  name : Option String
  email : Option String
  date : Option String
  time : Option String
  reason : Option String
deriving Repr, DecidableEq

/-- The form fields of `POST /reviews`. -/
structure ReviewForm where
  name : Option String
  rating : Option String
  comment : Option String
deriving Repr, DecidableEq

/-- The form fields of `POST /register`. -/
structure RegisterForm where
  name : Option String
  email : Option String
  password : Option String
deriving Repr, DecidableEq

/-- The form fields of `POST /login`. -/
structure LoginForm where
  email : Option String
  password : Option String
deriving Repr, DecidableEq

/-- The `book` route, including its `login_required` guard: an anonymous
request is flashed a warning and redirected to the login page; a POST
validates the four required fields (trimmed) and inserts an appointment
tagged with the session's `user_id`; a GET lists the caller's own
appointments newest first. -/
def book (db : DB) (sess : Session) (method : Method) (form : BookForm)
    (now : Nat) : Outcome :=
  if sess.user_id = none then
    ⟨.redirect .login, [⟨"Please log in to access that page.", "warning"⟩],
      db, sess⟩
  else
    match method with
    | .post =>
      let name := pyStrip (formGet form.name)
      let email := pyStrip (formGet form.email)
      let appt_date := pyStrip (formGet form.date)
      let appt_time := pyStrip (formGet form.time)
      let reason := pyStrip (formGet form.reason)
      if name = "" ∨ email = "" ∨ appt_date = "" ∨ appt_time = "" then
        ⟨.redirect .book, [⟨"Please fill all required fields.", "danger"⟩],
          db, sess⟩
      else
        let row : ApptRow :=
          ⟨db.next_appt_id, sess.user_id, name, email, appt_date, appt_time,
            reason, now⟩
        ⟨.redirect .book, [⟨"Appointment booked successfully.", "success"⟩],
          { db with appointments := db.appointments ++ [row],
                    next_appt_id := db.next_appt_id + 1 }, sess⟩
    | .get =>
      ⟨.renderBook (list_for_owner db sess.user_id), [], db, sess⟩

/-- The `reviews` route: GET is public and renders the joined feed; POST
requires a session, validates name and rating non-empty (trimmed), then
calls Python `int(rating)` unguarded — a non-numeric rating raises an
uncaught `ValueError` before the INSERT, modelled as `.error .valueError`
with the database unchanged. -/
def reviews (db : DB) (sess : Session) (method : Method) (form : ReviewForm)
    (now : Nat) : Except PyExc Outcome :=
  match method with
  | .post =>
    if sess.user_id = none then
      .ok ⟨.redirect .login, [⟨"Please log in to post a review.", "warning"⟩],
        db, sess⟩
    else
      let name := pyStrip (formGet form.name)
      let rating := pyStrip (formGet form.rating)
      let comment := pyStrip (formGet form.comment)
      if name = "" ∨ rating = "" then
        .ok ⟨.redirect .reviews,
          [⟨"Please provide your name and a rating.", "danger"⟩], db, sess⟩
      else
        match pyInt rating with
        | none => .error .valueError
        | some n =>
          let row : ReviewRow :=
            ⟨db.next_review_id, sess.user_id, name, n, comment, now⟩
          .ok ⟨.redirect .reviews, [⟨"Thanks for your review!", "success"⟩],
            { db with reviews := db.reviews ++ [row],
                      next_review_id := db.next_review_id + 1 }, sess⟩
  | .get =>
    .ok ⟨.renderReviews (list_all_reviews db), [], db, sess⟩

/-- The `register` route: an active session is redirected home untouched; a
POST trims the name, trims and lowercases the email, checks all three fields
non-empty, rejects a duplicate email, otherwise hashes the password and
inserts the new user. -/
def register (db : DB) (sess : Session) (method : Method)
    (form : RegisterForm) (salt : Nat) (now : Nat) : Outcome :=
  if sess.user_id ≠ none then
    ⟨.redirect .home, [], db, sess⟩
  else
    match method with
    | .post =>
      let name := pyStrip (formGet form.name)
      let email := pyLower (pyStrip (formGet form.email))
      let password := formGet form.password
      if name = "" ∨ email = "" ∨ password = "" then
        ⟨.redirect .register, [⟨"Please fill all fields.", "danger"⟩],
          db, sess⟩
      else
        match get_user_by_email db email with
        | some _ =>
          ⟨.redirect .register,
            [⟨"An account with that email already exists.", "warning"⟩],
            db, sess⟩
        | none =>
          let row : UserRow :=
            ⟨db.next_user_id, name, email,
              generate_password_hash salt password, now⟩
          ⟨.redirect .login,
            [⟨"Registration successful. Please log in.", "success"⟩],
            { db with users := db.users ++ [row],
                      next_user_id := db.next_user_id + 1 }, sess⟩
    | .get =>
      ⟨.renderPage .register, [], db, sess⟩

/-- `session["user_id"] = user["id"]; session["user_name"] = user["name"]`
(the session-establishing lines of `login`). -/
def start_session (uid : Nat) (name : String) : Session :=
  ⟨some uid, some name⟩

/-- `session.get("user_id")`: the identity a session resolves to, `none`
meaning anonymous. -/
def resolve (sess : Session) : Option Nat :=
  sess.user_id

/-- `session.clear()` (the `logout` route's effect on the session). -/
def end_session (_ : Session) : Session :=
  ⟨none, none⟩

/-- The `login` route: an active session is redirected home untouched; a
POST trims and lowercases the email, looks the user up, and on a missing
user OR a failed hash check produces the one generic failure outcome
(`not user or not check_password_hash(...)`); on success it establishes the
session and redirects home. -/
def login (db : DB) (sess : Session) (method : Method)
    (form : LoginForm) : Outcome :=
  if sess.user_id ≠ none then
    ⟨.redirect .home, [], db, sess⟩
  else
    match method with
    | .post =>
      let email := pyLower (pyStrip (formGet form.email))
      let password := formGet form.password
      let invalid : Outcome :=
        ⟨.redirect .login, [⟨"Invalid email or password.", "danger"⟩],
          db, sess⟩
      match get_user_by_email db email with
      | none => invalid
      | some user =>
        if check_password_hash user.password_hash password then
          ⟨.redirect .home,
            [⟨"Welcome back, " ++ user.name ++ "!", "success"⟩],
            db, start_session user.id user.name⟩
        else invalid
    | .get =>
      ⟨.renderPage .login, [], db, sess⟩

/-- The `logout` route: clears the session, flashes, redirects home. -/
def logout (db : DB) (sess : Session) : Outcome :=
  ⟨.redirect .home, [⟨"You have been logged out.", "info"⟩],
    db, end_session sess⟩

/-- The `profile` route, including its `login_required` guard. -/
def profile (db : DB) (sess : Session) : Outcome :=
  match sess.user_id with
  | none =>
    ⟨.redirect .login, [⟨"Please log in to access that page.", "warning"⟩],
      db, sess⟩
  | some uid =>
    ⟨.renderProfile (get_user_by_id db uid), [], db, sess⟩

/-! Concrete stores and sessions used to instantiate the theorems. -/

/-- A user as registered with salt 3 and password `pw123`. -/
def sampleHash : PwHash := generate_password_hash 3 "pw123"

def sampleUser : UserRow := ⟨1, "Alice", "a@x.com", sampleHash, 0⟩

def sampleDB : DB := ⟨[sampleUser], [], [], 2, 1, 1⟩

def emptyDB : DB := ⟨[], [], [], 1, 1, 1⟩

def anonSession : Session := ⟨none, none⟩

def aliceSession : Session := ⟨some 1, some "Alice"⟩

def apptA : ApptRow := ⟨1, some 1, "Alice", "a@x.com", "2024-01-01", "10:00", "checkup", 5⟩

def apptB : ApptRow := ⟨2, some 2, "Bob", "b@x.com", "2024-01-02", "11:00", "", 6⟩

def apptDB : DB := ⟨[], [apptA, apptB], [], 1, 3, 1⟩

/-- Claim C7: a session produced by `start_session uid name` resolves to
`uid`; after `end_session` it resolves to `none` (anonymous); and
`end_session` is idempotent. -/
theorem session_lifecycle (uid : Nat) (nm : String) (s : Session) :
    resolve (start_session uid nm) = some uid
    ∧ resolve (end_session (start_session uid nm)) = none
    ∧ end_session (end_session s) = end_session s :=
  ⟨rfl, rfl, rfl⟩

/-- Claim C9: with a session already active, both `register` and `login`
redirect to the home page and change nothing — database and session are
returned untouched, for any method and any form data. -/
theorem active_session_register_login_unchanged (db : DB) (sess : Session)
    (uid : Nat) (m : Method) (rform : RegisterForm) (lform : LoginForm)
    (salt now : Nat) (hactive : sess.user_id = some uid) :
    register db sess m rform salt now = ⟨.redirect .home, [], db, sess⟩
    ∧ login db sess m lform = ⟨.redirect .home, [], db, sess⟩ := by
  constructor <;> simp [register, login, hactive]

theorem active_session_register_login_unchanged_witness :
    register sampleDB aliceSession .post
        ⟨some "Bob", some "b@x.com", some "pw"⟩ 5 9
      = ⟨.redirect .home, [], sampleDB, aliceSession⟩
    ∧ login sampleDB aliceSession .post ⟨some "a@x.com", some "pw123"⟩
      = ⟨.redirect .home, [], sampleDB, aliceSession⟩ :=
  active_session_register_login_unchanged sampleDB aliceSession 1 .post
    ⟨some "Bob", some "b@x.com", some "pw"⟩ ⟨some "a@x.com", some "pw123"⟩
    5 9 rfl

/-- Claim C8: a request with no resolvable session is denied by the gate on
every protected operation — `book` (any method), `profile`, and review
posting — with a redirect to the login page, an advisory flash, and no
change to the database or session. -/
theorem anonymous_gate_denies (db : DB) (sess : Session) (m : Method)
    (bform : BookForm) (rform : ReviewForm) (now : Nat)
    (hanon : resolve sess = none) :
    book db sess m bform now
      = ⟨.redirect .login,
          [⟨"Please log in to access that page.", "warning"⟩], db, sess⟩
    ∧ profile db sess
      = ⟨.redirect .login,
          [⟨"Please log in to access that page.", "warning"⟩], db, sess⟩
    ∧ reviews db sess .post rform now
      = .ok ⟨.redirect .login,
          [⟨"Please log in to post a review.", "warning"⟩], db, sess⟩ := by
  have h : sess.user_id = none := hanon
  refine ⟨?_, ?_, ?_⟩ <;> simp [book, profile, reviews, h]

theorem anonymous_gate_denies_witness :
    profile sampleDB anonSession
      = ⟨.redirect .login,
          [⟨"Please log in to access that page.", "warning"⟩],
          sampleDB, anonSession⟩ :=
  (anonymous_gate_denies sampleDB anonSession .get
    ⟨none, none, none, none, none⟩ ⟨none, none, none⟩ 0 rfl).2.1

/-- Claim C5: a `POST /book` from a logged-in session fails validation and
writes no row whenever any of the four required fields (name, email, date,
time) is empty after trimming; when all four are non-empty the insert
succeeds for every value of `reason` — the only optional field. -/
theorem book_validation (db : DB) (sess : Session) (form : BookForm)
    (now uid : Nat) (hsess : sess.user_id = some uid) :
    ((pyStrip (formGet form.name) = "" ∨ pyStrip (formGet form.email) = ""
        ∨ pyStrip (formGet form.date) = "" ∨ pyStrip (formGet form.time) = "") →
      book db sess .post form now
        = ⟨.redirect .book,
            [⟨"Please fill all required fields.", "danger"⟩], db, sess⟩)
    ∧ (pyStrip (formGet form.name) ≠ "" → pyStrip (formGet form.email) ≠ ""
        → pyStrip (formGet form.date) ≠ "" → pyStrip (formGet form.time) ≠ "" →
      book db sess .post form now
        = ⟨.redirect .book,
            [⟨"Appointment booked successfully.", "success"⟩],
            { db with
                appointments := db.appointments
                  ++ [⟨db.next_appt_id, some uid, pyStrip (formGet form.name),
                        pyStrip (formGet form.email), pyStrip (formGet form.date),
                        pyStrip (formGet form.time), pyStrip (formGet form.reason),
                        now⟩],
                next_appt_id := db.next_appt_id + 1 }, sess⟩) := by
  constructor
  · intro h
    simp only [book, hsess]
    rw [if_neg (by simp)]
    rw [if_pos h]
  · intro h1 h2 h3 h4
    simp only [book, hsess]
    rw [if_neg (by simp)]
    rw [if_neg (by simp [h1, h2, h3, h4])]

theorem book_validation_witness :
    book sampleDB aliceSession .post
        ⟨some "  ", some "e@x", some "2024-01-01", some "10:00", none⟩ 7
      = ⟨.redirect .book,
          [⟨"Please fill all required fields.", "danger"⟩],
          sampleDB, aliceSession⟩ :=
  (book_validation sampleDB aliceSession
    ⟨some "  ", some "e@x", some "2024-01-01", some "10:00", none⟩ 7 1
    rfl).1 (Or.inl (by decide))

/-- Claim C3: from an anonymous session, a login attempt whose email matches
no user and a login attempt whose email matches a user but whose password
fails the hash check produce literally the same outcome — the same error
flash, the same redirect, and no state change — so the caller cannot tell
which part was wrong. -/
theorem login_failures_indistinguishable (db : DB) (sess : Session)
    (f1 f2 : LoginForm) (u : UserRow)
    (hanon : sess.user_id = none)
    (h1 : get_user_by_email db (pyLower (pyStrip (formGet f1.email))) = none)
    (h2 : get_user_by_email db (pyLower (pyStrip (formGet f2.email))) = some u)
    (hpw : check_password_hash u.password_hash (formGet f2.password) = false) :
    login db sess .post f1 = login db sess .post f2
    ∧ login db sess .post f1
      = ⟨.redirect .login, [⟨"Invalid email or password.", "danger"⟩],
          db, sess⟩ := by
  constructor <;> simp [login, hanon, h1, h2, hpw]

theorem login_failures_indistinguishable_witness :
    login sampleDB anonSession .post ⟨some "nobody@x.com", some "pw123"⟩
      = login sampleDB anonSession .post ⟨some "a@x.com", some "wrong"⟩ :=
  (login_failures_indistinguishable sampleDB anonSession
    ⟨some "nobody@x.com", some "pw123"⟩ ⟨some "a@x.com", some "wrong"⟩
    sampleUser rfl (by decide) (by decide) (by decide)).1

/-- Claim C2: from an anonymous session, registering with an email whose
trimmed lowercase normalization equals the email of a user already in the
store (the other fields being well-formed) is rejected with the
duplicate-email flash, and the database — user list included — is returned
exactly unchanged. -/
theorem register_duplicate_email_rejected (db : DB) (sess : Session)
    (form : RegisterForm) (salt now : Nat) (u : UserRow)
    (hanon : sess.user_id = none)
    (hname : pyStrip (formGet form.name) ≠ "")
    (hne : pyLower (pyStrip (formGet form.email)) ≠ "")
    (hpw : formGet form.password ≠ "")
    (hu : u ∈ db.users)
    (hemail : u.email = pyLower (pyStrip (formGet form.email))) :
    register db sess .post form salt now
      = ⟨.redirect .register,
          [⟨"An account with that email already exists.", "warning"⟩],
          db, sess⟩ := by
  have hfind : (get_user_by_email db (pyLower (pyStrip (formGet form.email)))).isSome := by
    rw [get_user_by_email, List.find?_isSome]
    exact ⟨u, hu, by simp [hemail]⟩
  cases hcase : get_user_by_email db (pyLower (pyStrip (formGet form.email))) with
  | none => rw [hcase] at hfind; simp at hfind
  | some v => simp [register, hanon, hname, hne, hpw, hcase]

theorem register_duplicate_email_rejected_witness :
    register sampleDB anonSession .post
        ⟨some "Another Alice", some " A@X.com ", some "newpw"⟩ 9 4
      = ⟨.redirect .register,
          [⟨"An account with that email already exists.", "warning"⟩],
          sampleDB, anonSession⟩ :=
  register_duplicate_email_rejected sampleDB anonSession
    ⟨some "Another Alice", some " A@X.com ", some "newpw"⟩ 9 4 sampleUser
    rfl (by decide) (by decide) (by decide) (by decide) (by decide)

/-- `pyStrip` of the empty string. -/
theorem pyStrip_empty : pyStrip "" = "" := rfl

/-- Claim C10: for both record-creation operations, a required field absent
from the form and the same field present but whitespace-only are treated
identically — the handler only sees the trimmed default, so both attempts
fail the same validation with no row written. Shown for the book name field
and the review rating field, from a logged-in session. -/
theorem absent_field_same_as_blank_field (db : DB) (sess : Session)
    (now uid : Nat) (ws : String) (f : BookForm) (rf : ReviewForm)
    (hactive : sess.user_id = some uid) (hws : pyStrip ws = "") :
    (book db sess .post { f with name := none } now
        = book db sess .post { f with name := some ws } now
      ∧ book db sess .post { f with name := none } now
        = ⟨.redirect .book,
            [⟨"Please fill all required fields.", "danger"⟩], db, sess⟩)
    ∧ (reviews db sess .post { rf with rating := none } now
        = reviews db sess .post { rf with rating := some ws } now
      ∧ reviews db sess .post { rf with rating := none } now
        = .ok ⟨.redirect .reviews,
            [⟨"Please provide your name and a rating.", "danger"⟩],
            db, sess⟩) := by
  refine ⟨⟨?_, ?_⟩, ⟨?_, ?_⟩⟩ <;>
    simp [book, reviews, formGet, hactive, hws, pyStrip_empty]

theorem absent_field_same_as_blank_field_witness :
    book sampleDB aliceSession .post
        ⟨none, some "e@x", some "2024-01-01", some "10:00", none⟩ 7
      = book sampleDB aliceSession .post
          ⟨some " ", some "e@x", some "2024-01-01", some "10:00", none⟩ 7 :=
  (absent_field_same_as_blank_field sampleDB aliceSession 7 1 " "
    ⟨some "ignored", some "e@x", some "2024-01-01", some "10:00", none⟩
    ⟨some "Bob", some "4", none⟩ rfl (by decide)).1.1

/-- Claim C1 (the code contradicts the spec here): with a logged-in session
and a non-empty name, a rating of `"abc"` passes the non-emptiness check and
then reaches the bare `int(rating)` call, which raises an uncaught
`ValueError` — there is no `ValidationError` advisory/redirect, though no
row is written; a rating of `"4"` succeeds and the stored rating is the
integer 4. -/
theorem review_rating_nonnumeric_crashes :
    reviews emptyDB aliceSession .post ⟨some "Bob", some "abc", some "Nice"⟩ 5
      = .error .valueError
    ∧ reviews emptyDB aliceSession .post ⟨some "Bob", some "4", some "Nice"⟩ 5
      = .ok ⟨.redirect .reviews, [⟨"Thanks for your review!", "success"⟩],
          ⟨[], [], [⟨1, some 1, "Bob", 4, "Nice", 5⟩], 1, 1, 2⟩,
          aliceSession⟩ := by
  constructor <;> rfl

/-- Claim C4: registering from an anonymous session (fields accepted, email
not yet taken) inserts a user whose identity is `db.next_user_id`, and a
subsequent login with the same password and any case variant of the email
succeeds and establishes a session resolving to that same identity. -/
theorem register_then_login_roundtrip (db : DB)
    (name email email2 password : String) (salt now : Nat)
    (hname : pyStrip name ≠ "")
    (hemail : pyLower (pyStrip email) ≠ "")
    (hpw : password ≠ "")
    (hnodup : get_user_by_email db (pyLower (pyStrip email)) = none)
    (hvariant : pyLower (pyStrip email2) = pyLower (pyStrip email)) :
    (register db ⟨none, none⟩ .post ⟨some name, some email, some password⟩
        salt now).db.users
      = db.users
        ++ [⟨db.next_user_id, pyStrip name, pyLower (pyStrip email),
              generate_password_hash salt password, now⟩]
    ∧ (register db ⟨none, none⟩ .post ⟨some name, some email, some password⟩
        salt now).resp = .redirect .login
    ∧ (login (register db ⟨none, none⟩ .post
          ⟨some name, some email, some password⟩ salt now).db
        ⟨none, none⟩ .post ⟨some email2, some password⟩).resp
      = .redirect .home
    ∧ resolve (login (register db ⟨none, none⟩ .post
          ⟨some name, some email, some password⟩ salt now).db
        ⟨none, none⟩ .post ⟨some email2, some password⟩).sess
      = some db.next_user_id := by
  have hreg : register db ⟨none, none⟩ .post
      ⟨some name, some email, some password⟩ salt now
      = ⟨.redirect .login,
          [⟨"Registration successful. Please log in.", "success"⟩],
          { db with
              users := db.users
                ++ [⟨db.next_user_id, pyStrip name, pyLower (pyStrip email),
                      generate_password_hash salt password, now⟩],
              next_user_id := db.next_user_id + 1 }, ⟨none, none⟩⟩ := by
    simp [register, formGet, hname, hemail, hpw, hnodup]
  have hfind : get_user_by_email (register db ⟨none, none⟩ .post
      ⟨some name, some email, some password⟩ salt now).db
      (pyLower (pyStrip email2))
      = some ⟨db.next_user_id, pyStrip name, pyLower (pyStrip email),
          generate_password_hash salt password, now⟩ := by
    rw [hreg, hvariant, get_user_by_email]
    rw [show ({ db with
        users := db.users
          ++ [⟨db.next_user_id, pyStrip name, pyLower (pyStrip email),
                generate_password_hash salt password, now⟩],
        next_user_id := db.next_user_id + 1 } : DB).users
      = db.users
          ++ [⟨db.next_user_id, pyStrip name, pyLower (pyStrip email),
                generate_password_hash salt password, now⟩] from rfl]
    rw [List.find?_append]
    rw [show db.users.find?
        (fun u => u.email == pyLower (pyStrip email)) = none from hnodup]
    simp [List.find?]
  have hcheck : check_password_hash
      (generate_password_hash salt password) password = true := by
    simp [check_password_hash, generate_password_hash]
  refine ⟨by rw [hreg], by rw [hreg], ?_, ?_⟩ <;>
    simp [login, formGet, hfind, hcheck, resolve, start_session]

theorem register_then_login_roundtrip_witness :
    resolve (login (register emptyDB ⟨none, none⟩ .post
          ⟨some "Alice", some " A@X.com ", some "pw123"⟩ 3 0).db
        ⟨none, none⟩ .post ⟨some "a@x.COM", some "pw123"⟩).sess = some 1 :=
  (register_then_login_roundtrip emptyDB "Alice" " A@X.com " "a@x.COM"
    "pw123" 3 0 (by decide) (by decide) (by decide) rfl (by decide)).2.2.2

/-- Claim C6: `list_for_owner` returns exactly the appointments owned by the
given user — membership in the result is equivalent to being a stored
appointment with that owner, the result is a permutation of the owner's
stored rows, and it is ordered newest first by creation timestamp. -/
theorem list_for_owner_exact (db : DB) (uid : Nat) :
    (∀ a ∈ list_for_owner db (some uid), a.user_id = some uid)
    ∧ (∀ a : ApptRow, a ∈ list_for_owner db (some uid)
        ↔ a ∈ db.appointments ∧ a.user_id = some uid)
    ∧ List.Sorted apptNewestFirst (list_for_owner db (some uid))
    ∧ (list_for_owner db (some uid)).Perm
        (db.appointments.filter (fun a => a.user_id == some uid)) := by
  have hmem : ∀ a : ApptRow, a ∈ list_for_owner db (some uid)
      ↔ a ∈ db.appointments ∧ a.user_id = some uid := by
    intro a
    simp [list_for_owner, List.mem_insertionSort, List.mem_filter]
  exact ⟨fun a ha => ((hmem a).mp ha).2, hmem,
    List.sorted_insertionSort apptNewestFirst _,
    List.perm_insertionSort apptNewestFirst _⟩

theorem list_for_owner_exact_witness : apptA.user_id = some 1 :=
  (list_for_owner_exact apptDB 1).1 apptA (by decide)
